import Mathlib

/-!
Verification of the download-session orchestration core of the Nexufy
repository (`src/main.py`, `src/downloader.py`).

The Python source is shallowly embedded: pure decision logic becomes Lean
functions; filesystem and network effects are represented by explicit
operation logs and oracle functions passed as parameters; Python exceptions
become `Except` values.  File ages and timestamps are modelled as exact
rationals / integers (the source uses real-valued seconds).
-/

namespace Nexufy

/-! ### Credential/Cookie Selector (`get_best_cookies`, src/main.py:139-201)

A candidate cookie bundle as gathered by `get_best_cookies` before ranking:
the environment-sourced bundle (age 0) and each uploaded `*.txt` file with
its age in hours.  The gathering itself is I/O; the selection logic below
starts from the gathered candidate list. -/

structure CookieOption where
  path : String
  source : String
  working : Bool
  status : String
  age : ℚ
deriving DecidableEq

/-- Python's tuple sort key `(not x['working'], x['age'])`: `False < True`,
so working candidates rank 0, non-working rank 1. -/
def notWorkingRank (o : CookieOption) : Nat :=
  if o.working then 0 else 1

/-- The lexicographic `≤` on the sort key `(not working, age)`. -/
def keyLe (a b : CookieOption) : Prop :=
  notWorkingRank a < notWorkingRank b ∨
    (notWorkingRank a = notWorkingRank b ∧ a.age ≤ b.age)

instance : DecidableRel keyLe := fun a b => by
  unfold keyLe; infer_instance

instance : IsTotal CookieOption keyLe := by
  constructor
  intro a b
  rcases Nat.lt_trichotomy (notWorkingRank a) (notWorkingRank b) with h | h | h
  · exact Or.inl (Or.inl h)
  · rcases le_total a.age b.age with h' | h'
    · exact Or.inl (Or.inr ⟨h, h'⟩)
    · exact Or.inr (Or.inr ⟨h.symm, h'⟩)
  · exact Or.inr (Or.inl h)

instance : IsTrans CookieOption keyLe := by
  constructor
  intro a b c hab hbc
  rcases hab with hab | ⟨hab, hab'⟩
  · rcases hbc with hbc | ⟨hbc, _⟩
    · exact Or.inl (hab.trans hbc)
    · exact Or.inl (hbc ▸ hab)
  · rcases hbc with hbc | ⟨hbc, hbc'⟩
    · exact Or.inl (hab ▸ hbc)
    · exact Or.inr ⟨hab.trans hbc, hab'.trans hbc'⟩

/-- `get_best_cookies` (selection part): Python's stable
`cookies_options.sort(key=lambda x: (not x['working'], x['age']))` is the
stable sort `List.insertionSort keyLe`; then the first working option's path
is returned, else the head (`cookies_options[0]`) of the sorted list, else
`None`. -/
def get_best_cookies (cookies_options : List CookieOption) : Option String :=
  let sorted := List.insertionSort keyLe cookies_options
  match sorted.find? (fun o => o.working) with
  | some o => some o.path
  | none =>
    match sorted with
    | [] => none
    | newest :: _ => some newest.path

lemma keyLe_age_of_rank_eq {a b : CookieOption}
    (h : keyLe a b) (hr : notWorkingRank a = notWorkingRank b) :
    a.age ≤ b.age := by
  rcases h with h | ⟨_, h⟩
  · omega
  · exact h

lemma notWorkingRank_eq_zero {o : CookieOption} (h : o.working) :
    notWorkingRank o = 0 := by
  simp [notWorkingRank, h]

lemma notWorkingRank_eq_one {o : CookieOption} (h : ¬ o.working) :
    notWorkingRank o = 1 := by
  simp [notWorkingRank, h]

/-- **C1.** `get_best_cookies` returns `none` iff the candidate set is empty;
if some candidate is working it returns the path of a working candidate of
minimal age (the stable ranking puts all working bundles first, newest
first); if the set is non-empty but no candidate works it returns the path
of a newest candidate regardless of working status. -/
theorem get_best_cookies_spec (opts : List CookieOption) :
    (get_best_cookies opts = none ↔ opts = []) ∧
    ((∃ o ∈ opts, o.working) →
      ∃ o ∈ opts, o.working ∧ get_best_cookies opts = some o.path ∧
        ∀ o' ∈ opts, o'.working → o.age ≤ o'.age) ∧
    ((opts ≠ [] ∧ ∀ o ∈ opts, ¬ o.working) →
      ∃ o ∈ opts, get_best_cookies opts = some o.path ∧
        ∀ o' ∈ opts, o.age ≤ o'.age) := by
  have hperm : List.Perm (List.insertionSort keyLe opts) opts :=
    List.perm_insertionSort keyLe opts
  have hsorted : List.Sorted keyLe (List.insertionSort keyLe opts) :=
    List.sorted_insertionSort keyLe opts
  refine ⟨?_, ?_, ?_⟩
  · constructor
    · intro h
      by_contra hne
      have hsne : List.insertionSort keyLe opts ≠ [] := by
        intro hnil
        have h0 : List.Perm opts ([] : List CookieOption) := by
          rw [← hnil]
          exact hperm.symm
        exact hne h0.eq_nil
      rcases hs : List.insertionSort keyLe opts with _ | ⟨hd, tl⟩
      · exact hsne hs
      · unfold get_best_cookies at h
        rw [hs] at h
        rcases hf : List.find? (fun o => o.working) (hd :: tl) with _ | o
        · simp [hf] at h
        · simp [hf] at h
    · intro h
      subst h
      rfl
  · rintro ⟨w, hw, hwork⟩
    have hwmem : w ∈ List.insertionSort keyLe opts := hperm.symm.subset hw
    rcases hs : List.insertionSort keyLe opts with _ | ⟨hd, tl⟩
    · rw [hs] at hwmem; simp at hwmem
    · rw [hs] at hwmem hsorted
      have hhead : ∀ b ∈ tl, keyLe hd b := (List.sorted_cons.mp hsorted).1
      have hdwork : hd.working := by
        by_contra hnd
        have hwtl : w ∈ tl := by
          rcases List.mem_cons.mp hwmem with h | h
          · exact absurd (h ▸ hwork) hnd
          · exact h
        have := hhead w hwtl
        rcases this with h | ⟨h, _⟩ <;>
          rw [notWorkingRank_eq_one hnd, notWorkingRank_eq_zero hwork] at h <;> omega
      have hdmem : hd ∈ opts := by
        refine hperm.subset ?_
        rw [hs]
        exact List.mem_cons_self hd tl
      refine ⟨hd, hdmem, hdwork, ?_, ?_⟩
      · unfold get_best_cookies
        rw [hs]
        simp only [List.find?_cons_of_pos _ (by simpa using hdwork)]
      · intro o' ho' hwork'
        have ho's : o' ∈ hd :: tl := by
          rw [← hs]
          exact hperm.symm.subset ho'
        rcases List.mem_cons.mp ho's with h | h
        · rw [h]
        · exact keyLe_age_of_rank_eq (hhead o' h)
            ((notWorkingRank_eq_zero hdwork).trans (notWorkingRank_eq_zero hwork').symm)
  · rintro ⟨hne, hall⟩
    have hsne : List.insertionSort keyLe opts ≠ [] := by
      intro hnil
      have h0 : List.Perm opts ([] : List CookieOption) := by
        rw [← hnil]
        exact hperm.symm
      exact hne h0.eq_nil
    rcases hs : List.insertionSort keyLe opts with _ | ⟨hd, tl⟩
    · exact absurd hs hsne
    · rw [hs] at hsorted
      have hhead : ∀ b ∈ tl, keyLe hd b := (List.sorted_cons.mp hsorted).1
      have hdmem : hd ∈ opts := by
        refine hperm.subset ?_
        rw [hs]
        exact List.mem_cons_self hd tl
      have hfind : List.find? (fun o => o.working) (hd :: tl) = none := by
        rw [List.find?_eq_none]
        intro x hx
        have hxo : x ∈ opts := by
          refine hperm.subset ?_
          rw [hs]
          exact hx
        simpa using hall x hxo
      refine ⟨hd, hdmem, ?_, ?_⟩
      · unfold get_best_cookies
        rw [hs]
        simp only [hfind]
      · intro o' ho'
        have ho's : o' ∈ hd :: tl := by
          rw [← hs]
          exact hperm.symm.subset ho'
        rcases List.mem_cons.mp ho's with h | h
        · rw [h]
        · exact keyLe_age_of_rank_eq (hhead o' h)
            ((notWorkingRank_eq_one (hall hd hdmem)).trans
              (notWorkingRank_eq_one (hall o' ho')).symm)

/-- Concrete witness data for C1: one stale working upload beats a fresh
non-working environment bundle. -/
def envOpt : CookieOption :=
  { path := "/tmp/env_cookies.txt", source := "Environment Variable",
    working := false, status := "HTTP 403", age := 0 }

def uploadOpt : CookieOption :=
  { path := "/tmp/cookies/u_cookies.txt", source := "User Upload: u_cookies.txt",
    working := true, status := "Cookies work", age := 5 }

/-- Witness for C1: on `[envOpt, uploadOpt]` a working candidate exists, and
the theorem yields the working candidate of minimal age. -/
theorem get_best_cookies_spec_witness :
    ∃ o ∈ [envOpt, uploadOpt], o.working ∧
      get_best_cookies [envOpt, uploadOpt] = some o.path ∧
      ∀ o' ∈ [envOpt, uploadOpt], o'.working → o.age ≤ o'.age :=
  (get_best_cookies_spec [envOpt, uploadOpt]).2.1
    ⟨uploadOpt, by decide, by decide⟩

/-! ### Fetch Orchestrator (`process_download` download loop,
src/main.py:398-448)

A resolved catalog entry (`spotdl.types.song.Song`); only the fields the
orchestration reads are modelled. -/

structure Song where
  name : String
  album : String
  artist : String
deriving DecidableEq

/-- An exception raised by `downloader.download_song`: either the
domain-specific `spotdl.AudioProviderError` or any other exception type. -/
inductive FetchError where
  | audioProvider (msg : String)
  | other (msg : String)
deriving DecidableEq

/-- The `downloader_settings` dict built for each attempt
(`{"simple_tui": True, "output": output_format, "yt_dlp_args": ...}`).
The source joins `yt_dlp_args` with spaces at the end; the argument list is
kept as a list here. -/
structure DownloaderSettings where
  simple_tui : Bool
  output : String
  yt_dlp_args : List String
deriving DecidableEq

def userAgent : String :=
  "Mozilla/5.0 (Windows NT 10.0; Win64; x64) AppleWebKit/537.36 (KHTML, like Gecko) Chrome/120.0.0.0 Safari/537.36"

/-- `if best_cookies: yt_dlp_args.extend(["--cookies", best_cookies])`. -/
def cookieArgs : Option String → List String
  | some c => ["--cookies", c]
  | none => []

/-- Attempt 1 settings: with proxy (src/main.py:409-419). -/
def proxySettings (proxy_url : String) (best_cookies : Option String)
    (output_format : String) : DownloaderSettings :=
  { simple_tui := true
    output := output_format
    yt_dlp_args :=
      ["--proxy", proxy_url, "--source-address", "0.0.0.0",
       "--socket-timeout", "30", "--retries", "3", "--fragment-retries", "3",
       "--retry-sleep", "1", "--no-abort-on-error", "--ignore-errors",
       "--user-agent", userAgent] ++ cookieArgs best_cookies }

/-- Attempt 2 settings: without proxy (src/main.py:434-443). -/
def noProxySettings (best_cookies : Option String)
    (output_format : String) : DownloaderSettings :=
  { simple_tui := true
    output := output_format
    yt_dlp_args :=
      ["--socket-timeout", "30", "--retries", "3", "--fragment-retries", "3",
       "--retry-sleep", "1", "--no-abort-on-error", "--ignore-errors",
       "--user-agent", userAgent] ++ cookieArgs best_cookies }

/-- `try: success, _ = downloader.download_song(song)
except AudioProviderError as e: success = False` — the domain error is
caught and becomes failure of that attempt; any other exception
propagates. -/
def attemptCaught : Except FetchError Bool → Except FetchError Bool
  | .error (.audioProvider _) => .ok false
  | r => r

/-- The body of the download loop for one `song` (src/main.py:402-448):
attempt 1 with proxy when `PROXY_URL` is set, then attempt 2 without proxy
whenever `success` is still false.  Returns the final `success` flag (or an
uncaught exception) together with the list of attempt configurations
actually invoked, in order. -/
def processSong (proxy_url best_cookies : Option String) (output_format : String)
    (download_song : DownloaderSettings → Song → Except FetchError Bool)
    (song : Song) : Except FetchError Bool × List DownloaderSettings :=
  match proxy_url with
  | some p =>
    let st1 := proxySettings p best_cookies output_format
    match attemptCaught (download_song st1 song) with
    | .error e => (.error e, [st1])
    | .ok true => (.ok true, [st1])
    | .ok false =>
      let st2 := noProxySettings best_cookies output_format
      (attemptCaught (download_song st2 song), [st1, st2])
  | none =>
    let st2 := noProxySettings best_cookies output_format
    (attemptCaught (download_song st2 song), [st2])

/-- `for song in songs: ...` — each song is processed in turn; an uncaught
exception aborts the loop (it propagates to the request boundary). -/
def processBatch (proxy_url best_cookies : Option String) (output_format : String)
    (download_song : DownloaderSettings → Song → Except FetchError Bool) :
    List Song → Except FetchError (List Bool)
  | [] => .ok []
  | song :: rest =>
    match (processSong proxy_url best_cookies output_format download_song song).1 with
    | .error e => .error e
    | .ok b =>
      match processBatch proxy_url best_cookies output_format download_song rest with
      | .error e => .error e
      | .ok bs => .ok (b :: bs)

/-- **C2.** With a configured proxy, if the primary (proxy) attempt does not
report success, exactly one fallback attempt runs with the proxy-free
configuration and the final result is the fallback's; without a proxy,
exactly one (no-proxy) attempt runs and no fallback occurs.  The fallback
configuration is the primary one with the proxy fields
(`--proxy <url> --source-address 0.0.0.0`) removed, and mentions no
`--proxy` argument. -/
theorem processSong_proxy_fallback (best_cookies : Option String)
    (output_format : String)
    (download_song : DownloaderSettings → Song → Except FetchError Bool)
    (song : Song) (hc : best_cookies ≠ some "--proxy") :
    (∀ p, attemptCaught
        (download_song (proxySettings p best_cookies output_format) song) = .ok false →
      processSong (some p) best_cookies output_format download_song song =
        (attemptCaught (download_song (noProxySettings best_cookies output_format) song),
         [proxySettings p best_cookies output_format,
          noProxySettings best_cookies output_format])) ∧
    (processSong none best_cookies output_format download_song song =
      (attemptCaught (download_song (noProxySettings best_cookies output_format) song),
       [noProxySettings best_cookies output_format])) ∧
    (∀ p, (proxySettings p best_cookies output_format).yt_dlp_args =
        ["--proxy", p, "--source-address", "0.0.0.0"] ++
          (noProxySettings best_cookies output_format).yt_dlp_args ∧
      (proxySettings p best_cookies output_format).output =
        (noProxySettings best_cookies output_format).output) ∧
    "--proxy" ∉ (noProxySettings best_cookies output_format).yt_dlp_args := by
  refine ⟨?_, ?_, ?_, ?_⟩
  · intro p h
    simp only [processSong, h]
  · rfl
  · intro p
    exact ⟨rfl, rfl⟩
  · rcases best_cookies with _ | c
    · simp [noProxySettings, cookieArgs, userAgent]
    · have hcp : ("--proxy" : String) ≠ c := by
        intro h
        exact hc (by rw [← h])
      simp [noProxySettings, cookieArgs, userAgent, hcp]

/-- Witness for C2: a proxy attempt reporting failure triggers exactly the
proxy-free fallback. -/
theorem processSong_proxy_fallback_witness :
    processSong (some "http://proxy:8080") (some "/tmp/cookies/u.txt") "/tmp/dl/o"
        (fun _ _ => .ok false) ⟨"s", "al", "ar"⟩ =
      (.ok false,
       [proxySettings "http://proxy:8080" (some "/tmp/cookies/u.txt") "/tmp/dl/o",
        noProxySettings (some "/tmp/cookies/u.txt") "/tmp/dl/o"]) :=
  (processSong_proxy_fallback (some "/tmp/cookies/u.txt") "/tmp/dl/o"
    (fun _ _ => .ok false) ⟨"s", "al", "ar"⟩ (by decide)).1 "http://proxy:8080" rfl

lemma attemptCaught_ok_of_no_other (r : Except FetchError Bool)
    (h : ∀ m, r ≠ .error (.other m)) : ∃ b, attemptCaught r = .ok b := by
  match r with
  | .ok b => exact ⟨b, rfl⟩
  | .error (.audioProvider m) => exact ⟨false, rfl⟩
  | .error (.other m) => exact absurd rfl (h m)

lemma processSong_fst_ok (proxy_url best_cookies : Option String)
    (output_format : String)
    (download_song : DownloaderSettings → Song → Except FetchError Bool)
    (song : Song)
    (hdl : ∀ st m, download_song st song ≠ .error (.other m)) :
    ∃ b, (processSong proxy_url best_cookies output_format download_song song).1 = .ok b := by
  rcases proxy_url with _ | p
  · exact attemptCaught_ok_of_no_other _ (hdl _)
  · obtain ⟨b1, hb1⟩ :=
      attemptCaught_ok_of_no_other
        (download_song (proxySettings p best_cookies output_format) song) (hdl _)
    simp only [processSong, hb1]
    rcases b1 with _ | _
    · exact attemptCaught_ok_of_no_other _ (hdl _)
    · exact ⟨true, rfl⟩

/-- **C3.** If the collaborator raises only the domain-specific
`AudioProviderError` (never another exception type), the whole batch
completes: the loop returns a success flag for every target, each target's
outcome depends only on its own attempts, and a caught `AudioProviderError`
makes that attempt report failure. -/
theorem processBatch_isolates_audio_errors (proxy_url best_cookies : Option String)
    (output_format : String)
    (download_song : DownloaderSettings → Song → Except FetchError Bool)
    (songs : List Song)
    (hdl : ∀ st s m, download_song st s ≠ .error (.other m)) :
    processBatch proxy_url best_cookies output_format download_song songs =
      .ok (songs.map fun s =>
        match (processSong proxy_url best_cookies output_format download_song s).1 with
        | .ok b => b
        | .error _ => false) ∧
    (∀ st s m, download_song st s = .error (.audioProvider m) →
      attemptCaught (download_song st s) = .ok false) := by
  constructor
  · induction songs with
    | nil => rfl
    | cons s rest ih =>
      obtain ⟨b, hb⟩ :=
        processSong_fst_ok proxy_url best_cookies output_format download_song s
          (fun st m => hdl st s m)
      unfold processBatch
      rw [hb, ih]
      simp [hb]
  · intro st s m h
    rw [h]
    rfl

/-- Witness for C3: both songs of a two-song batch raise
`AudioProviderError` on every attempt; the batch still completes with a
failure flag for each. -/
theorem processBatch_isolates_audio_errors_witness :
    processBatch none none "/tmp/dl/o"
        (fun _ _ => .error (.audioProvider "boom"))
        [⟨"a", "b", "c"⟩, ⟨"d", "e", "f"⟩] = .ok [false, false] := by
  have h :=
    (processBatch_isolates_audio_errors none none "/tmp/dl/o"
      (fun _ _ => .error (.audioProvider "boom"))
      [⟨"a", "b", "c"⟩, ⟨"d", "e", "f"⟩]
      (by intro st s m hx; simp at hx)).1
  rw [h]
  rfl

/-! ### Retention Sweeper (`cleanup_old_files`, src/main.py:214-247) -/

/-- An immediate child entry of a managed storage area: its path, creation
timestamp (`os.path.getctime`, seconds) and whether it is a directory. -/
structure Entry where
  name : String
  ctime : Int
  isDir : Bool
deriving DecidableEq

/-- One attempted deletion: the path, whether it was removed recursively
(`shutil.rmtree`, for directories) or via `os.remove` (files), and whether
the filesystem operation succeeded. -/
structure DeleteAttempt where
  path : String
  recursive : Bool
  ok : Bool
deriving DecidableEq

/-- The per-item loop over one of `DOWNLOAD_FOLDER`, `CONVERTER_UPLOADS`,
`CONVERTER_OUTPUT` (src/main.py:224-235): every entry older than the cutoff
is deleted inside its own `try/except (OSError, FileNotFoundError)`, so one
failure is logged and the loop continues with the next entry.  `deleteOk`
is the filesystem oracle saying whether deleting a path succeeds. -/
def sweepArea (deleteOk : String → Bool) (cutoff : Int) :
    List Entry → List DeleteAttempt
  | [] => []
  | e :: rest =>
    if e.ctime < cutoff then
      { path := e.name, recursive := e.isDir, ok := deleteOk e.name } ::
        sweepArea deleteOk cutoff rest
    else
      sweepArea deleteOk cutoff rest

/-- The cookie-file sweep (src/main.py:241-247): here the `try` wraps the
whole `for` loop, so the first failing `os.remove` raises out of the loop
and is caught outside it — the remaining cookie files are not attempted. -/
def sweepCookies (deleteOk : String → Bool) (cutoff : Int) :
    List Entry → List DeleteAttempt
  | [] => []
  | f :: rest =>
    if f.ctime < cutoff then
      if deleteOk f.name then
        { path := f.name, recursive := false, ok := true } ::
          sweepCookies deleteOk cutoff rest
      else
        [{ path := f.name, recursive := false, ok := false }]
    else
      sweepCookies deleteOk cutoff rest

/-- The entries of the four managed storage areas at sweep time. -/
structure CleanupInput where
  downloadEntries : List Entry
  converterUploadEntries : List Entry
  converterOutputEntries : List Entry
  cookieFiles : List Entry

/-- `cleanup_old_files`: `cutoff = now - timedelta(hours=2)` for the three
download/converter areas, `cookie_cutoff = now - timedelta(days=7)` for the
cookie files; the result is the ordered list of attempted deletions. -/
def cleanup_old_files (deleteOk : String → Bool) (now : Int)
    (inp : CleanupInput) : List DeleteAttempt :=
  sweepArea deleteOk (now - 2 * 3600) inp.downloadEntries ++
    sweepArea deleteOk (now - 2 * 3600) inp.converterUploadEntries ++
    sweepArea deleteOk (now - 2 * 3600) inp.converterOutputEntries ++
    sweepCookies deleteOk (now - 7 * 86400) inp.cookieFiles

lemma sweepArea_all_ok (cutoff : Int) (entries : List Entry) :
    sweepArea (fun _ => true) cutoff entries =
      (entries.filter (fun e => decide (e.ctime < cutoff))).map
        (fun e => { path := e.name, recursive := e.isDir, ok := true }) := by
  induction entries with
  | nil => rfl
  | cons e rest ih =>
    by_cases h : e.ctime < cutoff <;>
      simp [sweepArea, List.filter_cons, h, ih]

lemma sweepCookies_all_ok (cutoff : Int) (files : List Entry) :
    sweepCookies (fun _ => true) cutoff files =
      (files.filter (fun e => decide (e.ctime < cutoff))).map
        (fun e => { path := e.name, recursive := false, ok := true }) := by
  induction files with
  | nil => rfl
  | cons f rest ih =>
    by_cases h : f.ctime < cutoff <;>
      simp [sweepCookies, List.filter_cons, h, ih]

lemma sweepArea_attempt_src (deleteOk : String → Bool) (cutoff : Int)
    (entries : List Entry) :
    ∀ a ∈ sweepArea deleteOk cutoff entries,
      ∃ e ∈ entries, e.ctime < cutoff ∧ a.path = e.name ∧ a.recursive = e.isDir := by
  induction entries with
  | nil => intro a ha; simp [sweepArea] at ha
  | cons e rest ih =>
    intro a ha
    by_cases h : e.ctime < cutoff
    · rw [sweepArea, if_pos h] at ha
      rcases List.mem_cons.mp ha with h' | h'
      · exact ⟨e, List.mem_cons_self e rest, h, by rw [h'], by rw [h']⟩
      · obtain ⟨e', he', h1, h2, h3⟩ := ih a h'
        exact ⟨e', List.mem_cons_of_mem e he', h1, h2, h3⟩
    · rw [sweepArea, if_neg h] at ha
      obtain ⟨e', he', h1, h2, h3⟩ := ih a ha
      exact ⟨e', List.mem_cons_of_mem e he', h1, h2, h3⟩

lemma sweepCookies_attempt_src (deleteOk : String → Bool) (cutoff : Int)
    (files : List Entry) :
    ∀ a ∈ sweepCookies deleteOk cutoff files,
      ∃ f ∈ files, f.ctime < cutoff ∧ a.path = f.name ∧ a.recursive = false := by
  induction files with
  | nil => intro a ha; simp [sweepCookies] at ha
  | cons f rest ih =>
    intro a ha
    by_cases h : f.ctime < cutoff
    · rw [sweepCookies, if_pos h] at ha
      by_cases hd : deleteOk f.name
      · rw [if_pos hd] at ha
        rcases List.mem_cons.mp ha with h' | h'
        · exact ⟨f, List.mem_cons_self f rest, h, by rw [h'], by rw [h']⟩
        · obtain ⟨f', hf', h1, h2, h3⟩ := ih a h'
          exact ⟨f', List.mem_cons_of_mem f hf', h1, h2, h3⟩
      · rw [if_neg hd] at ha
        rcases List.mem_singleton.mp ha with h'
        exact ⟨f, List.mem_cons_self f rest, h, by rw [h'], by rw [h']⟩
    · rw [sweepCookies, if_neg h] at ha
      obtain ⟨f', hf', h1, h2, h3⟩ := ih a ha
      exact ⟨f', List.mem_cons_of_mem f hf', h1, h2, h3⟩

/-- **C6.** With all deletions succeeding, a sweep at time `now` deletes
exactly the entries of the download/converter areas older than two hours
(recursively for directories, plainly for files) and exactly the cookie
files older than seven days; younger entries generate no deletion attempt
(every attempt stems from an entry older than the window). -/
theorem cleanup_old_files_retention (now : Int) (inp : CleanupInput) :
    (cleanup_old_files (fun _ => true) now inp =
      (inp.downloadEntries.filter (fun e => decide (e.ctime < now - 2 * 3600))).map
        (fun e => { path := e.name, recursive := e.isDir, ok := true }) ++
      (inp.converterUploadEntries.filter (fun e => decide (e.ctime < now - 2 * 3600))).map
        (fun e => { path := e.name, recursive := e.isDir, ok := true }) ++
      (inp.converterOutputEntries.filter (fun e => decide (e.ctime < now - 2 * 3600))).map
        (fun e => { path := e.name, recursive := e.isDir, ok := true }) ++
      (inp.cookieFiles.filter (fun e => decide (e.ctime < now - 7 * 86400))).map
        (fun e => { path := e.name, recursive := false, ok := true })) ∧
    (∀ a ∈ cleanup_old_files (fun _ => true) now inp,
      (∃ e ∈ inp.downloadEntries, e.ctime < now - 2 * 3600 ∧ a.path = e.name) ∨
      (∃ e ∈ inp.converterUploadEntries, e.ctime < now - 2 * 3600 ∧ a.path = e.name) ∨
      (∃ e ∈ inp.converterOutputEntries, e.ctime < now - 2 * 3600 ∧ a.path = e.name) ∨
      (∃ e ∈ inp.cookieFiles, e.ctime < now - 7 * 86400 ∧ a.path = e.name)) := by
  constructor
  · unfold cleanup_old_files
    rw [sweepArea_all_ok, sweepArea_all_ok, sweepArea_all_ok, sweepCookies_all_ok]
  · intro a ha
    unfold cleanup_old_files at ha
    rcases List.mem_append.mp ha with h1 | h1
    · rcases List.mem_append.mp h1 with h2 | h2
      · rcases List.mem_append.mp h2 with h3 | h3
        · obtain ⟨e, he, hh1, hh2, _⟩ := sweepArea_attempt_src _ _ _ a h3
          exact Or.inl ⟨e, he, hh1, hh2⟩
        · obtain ⟨e, he, hh1, hh2, _⟩ := sweepArea_attempt_src _ _ _ a h3
          exact Or.inr (Or.inl ⟨e, he, hh1, hh2⟩)
      · obtain ⟨e, he, hh1, hh2, _⟩ := sweepArea_attempt_src _ _ _ a h2
        exact Or.inr (Or.inr (Or.inl ⟨e, he, hh1, hh2⟩))
    · obtain ⟨f, hf, hh1, hh2, _⟩ := sweepCookies_attempt_src _ _ _ a h1
      exact Or.inr (Or.inr (Or.inr ⟨f, hf, hh1, hh2⟩))

lemma sweepArea_paths (deleteOk : String → Bool) (cutoff : Int)
    (entries : List Entry) :
    (sweepArea deleteOk cutoff entries).map (fun a => a.path) =
      (entries.filter (fun e => decide (e.ctime < cutoff))).map (fun e => e.name) := by
  induction entries with
  | nil => rfl
  | cons e rest ih =>
    by_cases h : e.ctime < cutoff <;>
      simp [sweepArea, List.filter_cons, h, ih]

lemma sweepCookies_stops_at_failure (deleteOk : String → Bool) (cutoff : Int) :
    ∀ (files good : List Entry) (bad : Entry) (rest : List Entry),
      files.filter (fun e => decide (e.ctime < cutoff)) = good ++ bad :: rest →
      (∀ f ∈ good, deleteOk f.name = true) → deleteOk bad.name = false →
      sweepCookies deleteOk cutoff files =
        good.map (fun f => { path := f.name, recursive := false, ok := true }) ++
          [{ path := bad.name, recursive := false, ok := false }] := by
  intro files
  induction files with
  | nil =>
    intro good bad rest hf _ _
    rw [List.filter_nil] at hf
    exact absurd hf.symm (List.append_ne_nil_of_right_ne_nil good (List.cons_ne_nil bad rest))
  | cons f fs ih =>
    intro good bad rest hf hgood hbad
    by_cases h : f.ctime < cutoff
    · rw [List.filter_cons, if_pos (by simpa using h)] at hf
      rcases good with _ | ⟨g, good'⟩
      · simp only [List.nil_append] at hf
        have hfb : f = bad := (List.cons.injEq _ _ _ _).mp hf |>.1
        rw [sweepCookies, if_pos h, hfb, if_neg (by simp [hbad])]
        simp
      · have hfg : f = g := (List.cons.injEq _ _ _ _).mp (by simpa using hf) |>.1
        have hrest : fs.filter (fun e => decide (e.ctime < cutoff)) = good' ++ bad :: rest :=
          (List.cons.injEq _ _ _ _).mp (by simpa using hf) |>.2
        have hg : deleteOk f.name = true := by
          rw [hfg]
          exact hgood g (List.mem_cons_self g good')
        rw [sweepCookies, if_pos h, if_pos hg,
          ih good' bad rest hrest (fun x hx => hgood x (List.mem_cons_of_mem g hx)) hbad]
        simp [hfg]
    · rw [List.filter_cons, if_neg (by simpa using h)] at hf
      rw [sweepCookies, if_neg h]
      exact ih good bad rest hf hgood hbad

/-- Counterexample to **C7** as stated: in the cookie area, with two
cookie files both older than the 7-day window, a failure deleting the first
one prevents any deletion attempt for the second — the cookie sweep's
`try` wraps the whole loop, unlike the per-item `try` of the other areas. -/
theorem cleanup_cookie_abort_counterexample :
    cleanup_old_files (fun p => decide (p ≠ "/tmp/cookies/a.txt")) (7 * 86400)
        { downloadEntries := [], converterUploadEntries := [],
          converterOutputEntries := [],
          cookieFiles := [{ name := "/tmp/cookies/a.txt", ctime := -1, isDir := false },
                          { name := "/tmp/cookies/b.txt", ctime := -1, isDir := false }] } =
      [{ path := "/tmp/cookies/a.txt", recursive := false, ok := false }] ∧
    ∀ a ∈ cleanup_old_files (fun p => decide (p ≠ "/tmp/cookies/a.txt")) (7 * 86400)
        { downloadEntries := [], converterUploadEntries := [],
          converterOutputEntries := [],
          cookieFiles := [{ name := "/tmp/cookies/a.txt", ctime := -1, isDir := false },
                          { name := "/tmp/cookies/b.txt", ctime := -1, isDir := false }] },
      a.path ≠ "/tmp/cookies/b.txt" := by
  constructor
  · rfl
  · decide

/-- **C7 (amended).** For the download and converter areas every deletion is
attempted independently: the set of attempted paths is exactly the old
entries' paths, regardless of which deletions fail (so one failure prevents
neither the remaining attempts of that area nor those of any other area).
In the cookie area, by contrast, the first failed deletion ends that sweep:
the successfully deleted old cookie files before it are followed by the
single failed attempt and the remaining old cookie files are not
attempted. -/
theorem cleanup_failure_isolation :
    (∀ (deleteOk : String → Bool) (cutoff : Int) (entries : List Entry),
      (sweepArea deleteOk cutoff entries).map (fun a => a.path) =
        (entries.filter (fun e => decide (e.ctime < cutoff))).map (fun e => e.name)) ∧
    (∀ (deleteOk : String → Bool) (cutoff : Int)
        (files good : List Entry) (bad : Entry) (rest : List Entry),
      files.filter (fun e => decide (e.ctime < cutoff)) = good ++ bad :: rest →
      (∀ f ∈ good, deleteOk f.name = true) → deleteOk bad.name = false →
      sweepCookies deleteOk cutoff files =
        good.map (fun f => { path := f.name, recursive := false, ok := true }) ++
          [{ path := bad.name, recursive := false, ok := false }]) :=
  ⟨sweepArea_paths, sweepCookies_stops_at_failure⟩

/-- Witness for the amended C7: a failing deletion in a download-area sweep
still leaves both old entries attempted, and a failing cookie deletion cuts
the cookie sweep short after the successful attempts before it. -/
theorem cleanup_failure_isolation_witness :
    (sweepArea (fun p => decide (p ≠ "/tmp/downloads/u1")) 0
        [{ name := "/tmp/downloads/u1", ctime := -1, isDir := true },
         { name := "/tmp/downloads/u2", ctime := -1, isDir := true }]).map
        (fun a => a.path) = ["/tmp/downloads/u1", "/tmp/downloads/u2"] ∧
    sweepCookies (fun p => decide (p ≠ "/tmp/cookies/b.txt")) 0
        [{ name := "/tmp/cookies/a.txt", ctime := -1, isDir := false },
         { name := "/tmp/cookies/b.txt", ctime := -1, isDir := false },
         { name := "/tmp/cookies/c.txt", ctime := -1, isDir := false }] =
      [{ path := "/tmp/cookies/a.txt", recursive := false, ok := true },
       { path := "/tmp/cookies/b.txt", recursive := false, ok := false }] := by
  constructor
  · rw [cleanup_failure_isolation.1]
    rfl
  · rw [cleanup_failure_isolation.2 (fun p => decide (p ≠ "/tmp/cookies/b.txt")) 0
      [{ name := "/tmp/cookies/a.txt", ctime := -1, isDir := false },
       { name := "/tmp/cookies/b.txt", ctime := -1, isDir := false },
       { name := "/tmp/cookies/c.txt", ctime := -1, isDir := false }]
      [{ name := "/tmp/cookies/a.txt", ctime := -1, isDir := false }]
      { name := "/tmp/cookies/b.txt", ctime := -1, isDir := false }
      [{ name := "/tmp/cookies/c.txt", ctime := -1, isDir := false }]
      (by decide) (by decide) (by decide)]
    rfl

/-! ### Request orchestration (`process_download`, src/main.py:356-477) -/

def TEMP_BASE : String := "/tmp"

def DOWNLOAD_FOLDER : String := TEMP_BASE ++ "/downloads"

def COOKIES_FOLDER : String := TEMP_BASE ++ "/cookies"

/-- Python truthiness of an optional string (`request.form.get(...)`,
`os.environ.get(...)`): missing (`None`) and the empty string are falsy. -/
def optFalsy : Option String → Bool
  | none => true
  | some s => decide (s = "")

/-- `sanitize_name` (src/main.py:72-75):
`re.sub(r'[^a-zA-Z0-9_-]', '', name).strip()[:50] or "guest"`, with `None`
and `""` short-circuited to `"guest"`.  After the character filter no
whitespace remains, so `.strip()` is the identity and is omitted. -/
def sanitize_name (name : Option String) : String :=
  match name with
  | none => "guest"
  | some s =>
    if s = "" then "guest"
    else
      let cleaned :=
        ((s.data.filter (fun c => c.isAlphanum || c = '_' || c = '-')).take 50).asString
      if cleaned = "" then "guest" else cleaned

instance : Inhabited Song := ⟨⟨"", "", ""⟩⟩

/-- `playlist_name = songs[0].album or songs[0].artist or "Playlist"`
(src/main.py:390); missing attributes are modelled as `""`. -/
def playlist_name_of (s : Song) : String :=
  if s.album ≠ "" then s.album
  else if s.artist ≠ "" then s.artist
  else "Playlist"

/-- `"".join(c for c in playlist_name if c.isalnum() or c in (' ', '-')).rstrip()`
(src/main.py:391). -/
def sanitized_playlist_name_of (s : Song) : String :=
  ((((playlist_name_of s).data.filter
      (fun c => c.isAlphanum || c = ' ' || c = '-')).reverse.dropWhile
        (fun c => c.isWhitespace)).reverse).asString

def session_folder_of (user_name session_id : String) : String :=
  DOWNLOAD_FOLDER ++ "/" ++ user_name ++ "/" ++ session_id

def download_path_of (session_folder : String) (songs : List Song) : String :=
  session_folder ++ "/" ++ sanitized_playlist_name_of (songs.headD default)

/-- The `spotdl` output template `"{title} - {artist}.{output-ext}"`. -/
def outputTemplate : String := "\x7btitle\x7d - \x7bartist\x7d.\x7boutput-ext\x7d"

/-- `output_format` (src/main.py:394,396). -/
def output_format_of (session_folder : String) (songs : List Song) : String :=
  if 1 < songs.length then
    download_path_of session_folder songs ++ "/" ++ outputTemplate
  else
    session_folder ++ "/" ++ outputTemplate

/-- `actual_output_dir = download_path if is_playlist else session_folder`
(src/main.py:453). -/
def actual_output_dir_of (session_folder : String) (songs : List Song) : String :=
  if 1 < songs.length then download_path_of session_folder songs
  else session_folder

/-- Read-only filesystem snapshot used by the handler after the download
loop: `os.path.exists` and `os.listdir`. -/
structure FS where
  pathExists : String → Bool
  listdir : String → List String

/-- Filesystem mutations performed by the handler, in order. -/
inductive FSOp where
  | makedirs (path : String)
  | rmtree (path : String)
  | makeArchive (base : String) (fmt : String) (rootDir : String)
deriving DecidableEq

/-- The handler's HTTP outcome: `redirect(url_for('index'))` or
`render_template('index.html', download_link=True, ...)`. -/
inductive Response where
  | redirectIndex
  | renderSuccess (user_name session_id filename : String)
deriving DecidableEq

def Response.isSuccessPage : Response → Bool
  | .redirectIndex => false
  | .renderSuccess _ _ _ => true

structure ProcResult where
  response : Response
  flashes : List (String × String)
  fsOps : List FSOp
deriving DecidableEq

structure Form where
  url : Option String
  name : Option String

structure Env where
  SPOTIFY_CLIENT_ID : Option String
  SPOTIFY_CLIENT_SECRET : Option String
  PROXY_URL : Option String

/-- The `except Exception` branch at the request boundary
(src/main.py:471-477): flash `FATAL ERROR: {e}`, remove the session folder
if it still exists, redirect. -/
def fatalResult (fs : FS) (session_folder : String) (opsSoFar : List FSOp)
    (msg : String) : ProcResult :=
  { response := .redirectIndex
    flashes := [("FATAL ERROR: " ++ msg, "danger")]
    fsOps := opsSoFar ++
      (if fs.pathExists session_folder then [FSOp.rmtree session_folder] else []) }

/-- `str(e)` of the exception that aborted the download loop. -/
def fetchErrorMsg : FetchError → String
  | .audioProvider m => m
  | .other m => m

/-- `process_download` (src/main.py:356-477).  External collaborators are
oracles: `best_cookies` is `get_best_cookies()`'s result, `search` the
outcome of `Spotdl(...).search([url])` (an exception or a song list),
`download_song` the fetch collaborator, and `fs` the filesystem as
inspected after the loop.  The result records the HTTP response, the
flashed messages and the filesystem mutations in order. -/
def process_download (form : Form) (env : Env) (session_id : String)
    (best_cookies : Option String)
    (search : Except String (List Song))
    (download_song : DownloaderSettings → Song → Except FetchError Bool)
    (fs : FS) : ProcResult :=
  let user_name := sanitize_name form.name
  if optFalsy form.url then
    { response := .redirectIndex
      flashes := [("ERROR: No URL provided.", "danger")]
      fsOps := [] }
  else
    let session_folder := session_folder_of user_name session_id
    let ops0 : List FSOp := [FSOp.makedirs session_folder]
    if optFalsy env.SPOTIFY_CLIENT_ID || optFalsy env.SPOTIFY_CLIENT_SECRET then
      fatalResult fs session_folder ops0 "Spotify API credentials are not configured."
    else
      match search with
      | .error e => fatalResult fs session_folder ops0 e
      | .ok songs =>
        if songs.isEmpty then
          { response := .redirectIndex
            flashes := [("WARNING: Could not find any songs for the given URL.", "warning")]
            fsOps := ops0 ++ [FSOp.rmtree session_folder] }
        else
          let download_path := download_path_of session_folder songs
          let output_format := output_format_of session_folder songs
          let ops1 := if 1 < songs.length then ops0 ++ [FSOp.makedirs download_path] else ops0
          let proxy_url := if optFalsy env.PROXY_URL then none else env.PROXY_URL
          match processBatch proxy_url best_cookies output_format download_song songs with
          | .error e => fatalResult fs session_folder ops1 (fetchErrorMsg e)
          | .ok _ =>
            let actual_output_dir := actual_output_dir_of session_folder songs
            if fs.pathExists actual_output_dir && !(fs.listdir actual_output_dir).isEmpty then
              if 1 < songs.length then
                { response := .renderSuccess user_name session_id
                    (sanitized_playlist_name_of (songs.headD default) ++ ".zip")
                  flashes := []
                  fsOps := ops1 ++
                    [FSOp.makeArchive
                      (session_folder ++ "/" ++ sanitized_playlist_name_of (songs.headD default))
                      "zip" download_path,
                     FSOp.rmtree download_path] }
              else
                { response := .renderSuccess user_name session_id
                    ((fs.listdir session_folder).headD "")
                  flashes := []
                  fsOps := ops1 }
            else
              { response := .redirectIndex
                flashes := [("ERROR: Download failed. No audio file was created. The URL might be invalid or protected. Try uploading fresh cookies.", "danger")]
                fsOps := ops1 ++
                  (if fs.pathExists session_folder then [FSOp.rmtree session_folder] else []) }

lemma isEmpty_false_of_ne_nil {α : Type} {l : List α} (h : l ≠ []) :
    l.isEmpty = false := by
  cases l with
  | nil => exact absurd rfl h
  | cons a l => rfl

/-- Reduction of `process_download` once the URL, the credentials, a
non-empty search result and a completed download loop are given: only the
final directory check remains. -/
lemma process_download_after_batch (form : Form) (env : Env) (session_id : String)
    (best_cookies : Option String) (songs : List Song)
    (download_song : DownloaderSettings → Song → Except FetchError Bool)
    (fs : FS) (bs : List Bool)
    (hurl : optFalsy form.url = false)
    (hid : optFalsy env.SPOTIFY_CLIENT_ID = false)
    (hsec : optFalsy env.SPOTIFY_CLIENT_SECRET = false)
    (hne : songs ≠ [])
    (hb : processBatch (if optFalsy env.PROXY_URL then none else env.PROXY_URL)
      best_cookies
      (output_format_of (session_folder_of (sanitize_name form.name) session_id) songs)
      download_song songs = .ok bs) :
    process_download form env session_id best_cookies (.ok songs) download_song fs =
      (if fs.pathExists
            (actual_output_dir_of (session_folder_of (sanitize_name form.name) session_id) songs)
          && !(fs.listdir
            (actual_output_dir_of (session_folder_of (sanitize_name form.name) session_id) songs)).isEmpty then
        (if 1 < songs.length then
          { response := Response.renderSuccess (sanitize_name form.name) session_id
              (sanitized_playlist_name_of (songs.headD default) ++ ".zip")
            flashes := []
            fsOps :=
              [FSOp.makedirs (session_folder_of (sanitize_name form.name) session_id),
               FSOp.makedirs (download_path_of (session_folder_of (sanitize_name form.name) session_id) songs),
               FSOp.makeArchive
                 (session_folder_of (sanitize_name form.name) session_id ++ "/" ++
                   sanitized_playlist_name_of (songs.headD default))
                 "zip"
                 (download_path_of (session_folder_of (sanitize_name form.name) session_id) songs),
               FSOp.rmtree (download_path_of (session_folder_of (sanitize_name form.name) session_id) songs)] }
         else
          { response := Response.renderSuccess (sanitize_name form.name) session_id
              ((fs.listdir (session_folder_of (sanitize_name form.name) session_id)).headD "")
            flashes := []
            fsOps := [FSOp.makedirs (session_folder_of (sanitize_name form.name) session_id)] })
      else
        { response := Response.redirectIndex
          flashes := [("ERROR: Download failed. No audio file was created. The URL might be invalid or protected. Try uploading fresh cookies.", "danger")]
          fsOps :=
            (if 1 < songs.length then
              [FSOp.makedirs (session_folder_of (sanitize_name form.name) session_id),
               FSOp.makedirs (download_path_of (session_folder_of (sanitize_name form.name) session_id) songs)]
             else
              [FSOp.makedirs (session_folder_of (sanitize_name form.name) session_id)]) ++
            (if fs.pathExists (session_folder_of (sanitize_name form.name) session_id) then
              [FSOp.rmtree (session_folder_of (sanitize_name form.name) session_id)]
             else []) }) := by
  have hie : songs.isEmpty = false := isEmpty_false_of_ne_nil hne
  unfold process_download
  simp only [hurl, hid, hsec, hie, hb, Bool.or_self, Bool.false_eq_true, if_false]
  by_cases hp : 1 < songs.length <;>
    simp [hp]

/-- **C8.** A request whose form data lacks the `url` field flashes an
error and redirects, performing no filesystem operation: no session
workspace is created. -/
theorem process_download_missing_url (form : Form) (env : Env) (session_id : String)
    (best_cookies : Option String) (search : Except String (List Song))
    (download_song : DownloaderSettings → Song → Except FetchError Bool)
    (fs : FS) (hurl : form.url = none) :
    process_download form env session_id best_cookies search download_song fs =
      { response := Response.redirectIndex
        flashes := [("ERROR: No URL provided.", "danger")]
        fsOps := [] } := by
  unfold process_download
  rw [hurl]
  rfl

/-- Witness for C8 at a concrete request. -/
theorem process_download_missing_url_witness :
    process_download { url := none, name := some "alice" }
        { SPOTIFY_CLIENT_ID := some "id", SPOTIFY_CLIENT_SECRET := some "sec",
          PROXY_URL := none }
        "sid-1" none (.ok []) (fun _ _ => .ok true)
        { pathExists := fun _ => false, listdir := fun _ => [] } =
      { response := Response.redirectIndex
        flashes := [("ERROR: No URL provided.", "danger")]
        fsOps := [] } :=
  process_download_missing_url { url := none, name := some "alice" }
    { SPOTIFY_CLIENT_ID := some "id", SPOTIFY_CLIENT_SECRET := some "sec",
      PROXY_URL := none }
    "sid-1" none (.ok []) (fun _ _ => .ok true)
    { pathExists := fun _ => false, listdir := fun _ => [] } rfl

/-- **C4.** After the download loop completes, batch success is decided
solely by the destination output directory being present and non-empty: the
success page is rendered exactly when that check passes, and the outcome is
identical for any two download collaborators whose loops complete — the
per-target success booleans are never aggregated into the decision. -/
theorem process_download_dir_decides (form : Form) (env : Env) (session_id : String)
    (best_cookies : Option String) (songs : List Song)
    (dl₁ dl₂ : DownloaderSettings → Song → Except FetchError Bool)
    (fs : FS) (bs₁ bs₂ : List Bool)
    (hurl : optFalsy form.url = false)
    (hid : optFalsy env.SPOTIFY_CLIENT_ID = false)
    (hsec : optFalsy env.SPOTIFY_CLIENT_SECRET = false)
    (hne : songs ≠ [])
    (h1 : processBatch (if optFalsy env.PROXY_URL then none else env.PROXY_URL)
      best_cookies
      (output_format_of (session_folder_of (sanitize_name form.name) session_id) songs)
      dl₁ songs = .ok bs₁)
    (h2 : processBatch (if optFalsy env.PROXY_URL then none else env.PROXY_URL)
      best_cookies
      (output_format_of (session_folder_of (sanitize_name form.name) session_id) songs)
      dl₂ songs = .ok bs₂) :
    (process_download form env session_id best_cookies (.ok songs) dl₁ fs).response.isSuccessPage =
      (fs.pathExists
          (actual_output_dir_of (session_folder_of (sanitize_name form.name) session_id) songs)
        && !(fs.listdir
          (actual_output_dir_of (session_folder_of (sanitize_name form.name) session_id) songs)).isEmpty) ∧
    process_download form env session_id best_cookies (.ok songs) dl₁ fs =
      process_download form env session_id best_cookies (.ok songs) dl₂ fs := by
  rw [process_download_after_batch form env session_id best_cookies songs dl₁ fs bs₁
      hurl hid hsec hne h1,
    process_download_after_batch form env session_id best_cookies songs dl₂ fs bs₂
      hurl hid hsec hne h2]
  refine ⟨?_, rfl⟩
  generalize (fs.pathExists
      (actual_output_dir_of (session_folder_of (sanitize_name form.name) session_id) songs)
    && !(fs.listdir
      (actual_output_dir_of (session_folder_of (sanitize_name form.name) session_id) songs)).isEmpty) = c
  cases c
  · rfl
  · by_cases hp : 1 < songs.length <;> simp [hp, Response.isSuccessPage]

/-- Witness for C4: a single-target request whose file landed on disk
renders the success page. -/
theorem process_download_dir_decides_witness :
    (process_download { url := some "https://open.example/track/abc", name := none }
        { SPOTIFY_CLIENT_ID := some "id", SPOTIFY_CLIENT_SECRET := some "sec",
          PROXY_URL := none }
        "sid-1" none (.ok [{ name := "Song A", album := "", artist := "Artist" }])
        (fun _ _ => .ok true)
        { pathExists := fun _ => true,
          listdir := fun _ => ["Song A - Artist.mp3"] }).response.isSuccessPage = true := by
  have h := (process_download_dir_decides
    { url := some "https://open.example/track/abc", name := none }
    { SPOTIFY_CLIENT_ID := some "id", SPOTIFY_CLIENT_SECRET := some "sec",
      PROXY_URL := none }
    "sid-1" none [{ name := "Song A", album := "", artist := "Artist" }]
    (fun _ _ => .ok true) (fun _ _ => .ok true)
    { pathExists := fun _ => true, listdir := fun _ => ["Song A - Artist.mp3"] }
    [true] [true] (by decide) (by decide) (by decide) (by decide) rfl rfl).1
  rw [h]
  rfl

/-- **C5.** On a successful batch: a multi-target batch archives the
playlist directory into `<session_folder>/<name>.zip`, removes the
uncompressed directory and serves the archive name; a single-target batch
serves the lone file of the session folder directly, with no archive and no
directory removal. -/
theorem process_download_serves_archive_or_file (form : Form) (env : Env)
    (session_id : String) (best_cookies : Option String) (songs : List Song)
    (download_song : DownloaderSettings → Song → Except FetchError Bool)
    (fs : FS) (bs : List Bool)
    (hurl : optFalsy form.url = false)
    (hid : optFalsy env.SPOTIFY_CLIENT_ID = false)
    (hsec : optFalsy env.SPOTIFY_CLIENT_SECRET = false)
    (hne : songs ≠ [])
    (hb : processBatch (if optFalsy env.PROXY_URL then none else env.PROXY_URL)
      best_cookies
      (output_format_of (session_folder_of (sanitize_name form.name) session_id) songs)
      download_song songs = .ok bs) :
    (1 < songs.length →
      fs.pathExists
        (download_path_of (session_folder_of (sanitize_name form.name) session_id) songs) = true →
      fs.listdir
        (download_path_of (session_folder_of (sanitize_name form.name) session_id) songs) ≠ [] →
      process_download form env session_id best_cookies (.ok songs) download_song fs =
        { response := Response.renderSuccess (sanitize_name form.name) session_id
            (sanitized_playlist_name_of (songs.headD default) ++ ".zip")
          flashes := []
          fsOps :=
            [FSOp.makedirs (session_folder_of (sanitize_name form.name) session_id),
             FSOp.makedirs (download_path_of (session_folder_of (sanitize_name form.name) session_id) songs),
             FSOp.makeArchive
               (session_folder_of (sanitize_name form.name) session_id ++ "/" ++
                 sanitized_playlist_name_of (songs.headD default))
               "zip"
               (download_path_of (session_folder_of (sanitize_name form.name) session_id) songs),
             FSOp.rmtree (download_path_of (session_folder_of (sanitize_name form.name) session_id) songs)] }) ∧
    (songs.length = 1 →
      ∀ f, fs.pathExists (session_folder_of (sanitize_name form.name) session_id) = true →
        fs.listdir (session_folder_of (sanitize_name form.name) session_id) = [f] →
        process_download form env session_id best_cookies (.ok songs) download_song fs =
          { response := Response.renderSuccess (sanitize_name form.name) session_id f
            flashes := []
            fsOps := [FSOp.makedirs (session_folder_of (sanitize_name form.name) session_id)] }) := by
  rw [process_download_after_batch form env session_id best_cookies songs download_song fs bs
    hurl hid hsec hne hb]
  constructor
  · intro hp hex hlist
    simp [actual_output_dir_of, hp, hex, isEmpty_false_of_ne_nil hlist]
  · intro h1 f hex hl
    have hp : ¬ 1 < songs.length := by omega
    simp [actual_output_dir_of, hp, hex, hl]

/-- Witness for C5: a two-song batch with files on disk is served as a
zip archive of the playlist directory, which is then removed. -/
theorem process_download_serves_archive_or_file_witness :
    process_download { url := some "https://open.example/album/x", name := none }
        { SPOTIFY_CLIENT_ID := some "id", SPOTIFY_CLIENT_SECRET := some "sec",
          PROXY_URL := none }
        "sid-2" none
        (.ok [{ name := "A", album := "Album", artist := "Artist" },
              { name := "B", album := "Album", artist := "Artist" }])
        (fun _ _ => .ok true)
        { pathExists := fun _ => true, listdir := fun _ => ["a.mp3", "b.mp3"] } =
      { response := Response.renderSuccess "guest" "sid-2" "Album.zip"
        flashes := []
        fsOps :=
          [FSOp.makedirs "/tmp/downloads/guest/sid-2",
           FSOp.makedirs "/tmp/downloads/guest/sid-2/Album",
           FSOp.makeArchive "/tmp/downloads/guest/sid-2/Album" "zip"
             "/tmp/downloads/guest/sid-2/Album",
           FSOp.rmtree "/tmp/downloads/guest/sid-2/Album"] } := by
  have h := (process_download_serves_archive_or_file
    { url := some "https://open.example/album/x", name := none }
    { SPOTIFY_CLIENT_ID := some "id", SPOTIFY_CLIENT_SECRET := some "sec",
      PROXY_URL := none }
    "sid-2" none
    [{ name := "A", album := "Album", artist := "Artist" },
     { name := "B", album := "Album", artist := "Artist" }]
    (fun _ _ => .ok true)
    { pathExists := fun _ => true, listdir := fun _ => ["a.mp3", "b.mp3"] }
    [true, true] (by decide) (by decide) (by decide) (by decide) rfl).1
    (by decide) rfl (by decide)
  rw [h]
  rfl

/-- **C9.** On every failure path after the workspace was allocated —
missing credentials, a failing search collaborator, a search resolving zero
targets, an uncaught exception from the download loop, or an empty output
directory — the handler removes the session workspace, flashes a message
and redirects instead of propagating the exception. -/
theorem process_download_failure_cleanup (form : Form) (env : Env)
    (session_id : String) (best_cookies : Option String)
    (download_song : DownloaderSettings → Song → Except FetchError Bool)
    (fs : FS)
    (hurl : optFalsy form.url = false)
    (hfs : fs.pathExists (session_folder_of (sanitize_name form.name) session_id) = true) :
    (optFalsy env.SPOTIFY_CLIENT_ID = false → optFalsy env.SPOTIFY_CLIENT_SECRET = false →
      process_download form env session_id best_cookies (.ok []) download_song fs =
        { response := Response.redirectIndex
          flashes := [("WARNING: Could not find any songs for the given URL.", "warning")]
          fsOps := [FSOp.makedirs (session_folder_of (sanitize_name form.name) session_id),
                    FSOp.rmtree (session_folder_of (sanitize_name form.name) session_id)] }) ∧
    (optFalsy env.SPOTIFY_CLIENT_ID = true →
      ∀ search, process_download form env session_id best_cookies search download_song fs =
        { response := Response.redirectIndex
          flashes := [("FATAL ERROR: Spotify API credentials are not configured.", "danger")]
          fsOps := [FSOp.makedirs (session_folder_of (sanitize_name form.name) session_id),
                    FSOp.rmtree (session_folder_of (sanitize_name form.name) session_id)] }) ∧
    (optFalsy env.SPOTIFY_CLIENT_ID = false → optFalsy env.SPOTIFY_CLIENT_SECRET = false →
      ∀ e, process_download form env session_id best_cookies (.error e) download_song fs =
        { response := Response.redirectIndex
          flashes := [("FATAL ERROR: " ++ e, "danger")]
          fsOps := [FSOp.makedirs (session_folder_of (sanitize_name form.name) session_id),
                    FSOp.rmtree (session_folder_of (sanitize_name form.name) session_id)] }) ∧
    (optFalsy env.SPOTIFY_CLIENT_ID = false → optFalsy env.SPOTIFY_CLIENT_SECRET = false →
      ∀ songs e, songs ≠ [] →
        processBatch (if optFalsy env.PROXY_URL then none else env.PROXY_URL)
          best_cookies
          (output_format_of (session_folder_of (sanitize_name form.name) session_id) songs)
          download_song songs = .error e →
        process_download form env session_id best_cookies (.ok songs) download_song fs =
          { response := Response.redirectIndex
            flashes := [("FATAL ERROR: " ++ fetchErrorMsg e, "danger")]
            fsOps :=
              (if 1 < songs.length then
                [FSOp.makedirs (session_folder_of (sanitize_name form.name) session_id),
                 FSOp.makedirs (download_path_of (session_folder_of (sanitize_name form.name) session_id) songs)]
               else
                [FSOp.makedirs (session_folder_of (sanitize_name form.name) session_id)]) ++
              [FSOp.rmtree (session_folder_of (sanitize_name form.name) session_id)] }) ∧
    (optFalsy env.SPOTIFY_CLIENT_ID = false → optFalsy env.SPOTIFY_CLIENT_SECRET = false →
      ∀ songs bs, songs ≠ [] →
        processBatch (if optFalsy env.PROXY_URL then none else env.PROXY_URL)
          best_cookies
          (output_format_of (session_folder_of (sanitize_name form.name) session_id) songs)
          download_song songs = .ok bs →
        (fs.pathExists
            (actual_output_dir_of (session_folder_of (sanitize_name form.name) session_id) songs)
          && !(fs.listdir
            (actual_output_dir_of (session_folder_of (sanitize_name form.name) session_id) songs)).isEmpty) = false →
        process_download form env session_id best_cookies (.ok songs) download_song fs =
          { response := Response.redirectIndex
            flashes := [("ERROR: Download failed. No audio file was created. The URL might be invalid or protected. Try uploading fresh cookies.", "danger")]
            fsOps :=
              (if 1 < songs.length then
                [FSOp.makedirs (session_folder_of (sanitize_name form.name) session_id),
                 FSOp.makedirs (download_path_of (session_folder_of (sanitize_name form.name) session_id) songs)]
               else
                [FSOp.makedirs (session_folder_of (sanitize_name form.name) session_id)]) ++
              [FSOp.rmtree (session_folder_of (sanitize_name form.name) session_id)] }) := by
  refine ⟨?_, ?_, ?_, ?_, ?_⟩
  · intro hid hsec
    unfold process_download
    simp [hurl, hid, hsec]
  · intro hid search
    unfold process_download
    simp [hurl, hid, fatalResult, hfs]
  · intro hid hsec e
    unfold process_download
    simp [hurl, hid, hsec, fatalResult, hfs]
  · intro hid hsec songs e hne hb
    have hie : songs.isEmpty = false := isEmpty_false_of_ne_nil hne
    unfold process_download
    simp only [hurl, hid, hsec, hie, hb, Bool.or_self, Bool.false_eq_true, if_false]
    by_cases hp : 1 < songs.length <;>
      simp [hp, fatalResult, hfs]
  · intro hid hsec songs bs hne hb hcond
    rw [process_download_after_batch form env session_id best_cookies songs download_song fs bs
      hurl hid hsec hne hb]
    rw [hcond]
    by_cases hp : 1 < songs.length <;>
      simp [hp, hfs]

/-- Witness for C9: a search resolving zero targets removes the freshly
created workspace, flashes a warning and redirects. -/
theorem process_download_failure_cleanup_witness :
    process_download { url := some "https://open.example/track/abc", name := some "bob" }
        { SPOTIFY_CLIENT_ID := some "id", SPOTIFY_CLIENT_SECRET := some "sec",
          PROXY_URL := none }
        "sid-3" none (.ok []) (fun _ _ => .ok true)
        { pathExists := fun _ => true, listdir := fun _ => [] } =
      { response := Response.redirectIndex
        flashes := [("WARNING: Could not find any songs for the given URL.", "warning")]
        fsOps := [FSOp.makedirs "/tmp/downloads/bob/sid-3",
                  FSOp.rmtree "/tmp/downloads/bob/sid-3"] } := by
  have h := (process_download_failure_cleanup
    { url := some "https://open.example/track/abc", name := some "bob" }
    { SPOTIFY_CLIENT_ID := some "id", SPOTIFY_CLIENT_SECRET := some "sec",
      PROXY_URL := none }
    "sid-3" none (fun _ _ => .ok true)
    { pathExists := fun _ => true, listdir := fun _ => [] }
    (by decide) rfl).1 (by decide) (by decide)
  rw [h]
  rfl

/-! ### Cookie upload validation (`validate_cookies_file`, src/main.py:77-108
and `upload_cookies`, src/main.py:289-334)

Python string primitives (`str.split`, `str.strip`, `str.startswith`,
substring membership) implemented by structural recursion over the
character list, so they evaluate inside proofs. -/

/-- Python `str.split(sep)` for a single-character separator: keeps empty
pieces, and splitting the empty string yields `[""]`. -/
def pySplitChar (sep : Char) (l : List Char) : List (List Char) :=
  l.foldr
    (fun c acc =>
      if c = sep then [] :: acc
      else
        match acc with
        | [] => [[c]]
        | cur :: rest => (c :: cur) :: rest)
    [[]]

/-- Python `str.strip()`: drop leading and trailing whitespace. -/
def pyStrip (l : List Char) : List Char :=
  ((l.dropWhile Char.isWhitespace).reverse.dropWhile Char.isWhitespace).reverse

/-- Python `s.startswith(pat)`. -/
def pyStartsWith (s pat : String) : Bool :=
  pat.data.isPrefixOf s.data

/-- Python `pat in s` (substring membership), for a non-empty pattern. -/
def containsSub (pat : List Char) : List Char → Bool
  | [] => pat.isEmpty
  | c :: rest => pat.isPrefixOf (c :: rest) || containsSub pat rest

/-- `lines = content.strip().split('\n')`. -/
def pyLines (content : String) : List String :=
  (pySplitChar (Char.ofNat 10) (pyStrip content.data)).map (fun l => l.asString)

/-- `line.startswith('#') or not line.strip()` is false exactly on the
cookie-data lines the validation loop examines. -/
def isCookieDataLine (line : String) : Bool :=
  !(pyStartsWith line "#" || (pyStrip line.data).isEmpty)

def isValidCookieLine (line : String) : Bool :=
  isCookieDataLine line && decide (7 ≤ (pySplitChar (Char.ofNat 9) line.data).length)

/-- `'youtube.com' in domain or 'google.com' in domain`, with
`domain = parts[0]`. -/
def lineDomainIsYoutube (line : String) : Bool :=
  containsSub "youtube.com".data ((pySplitChar (Char.ofNat 9) line.data).headD []) ||
    containsSub "google.com".data ((pySplitChar (Char.ofNat 9) line.data).headD [])

/-- The `for line in lines[1:]` loop of `validate_cookies_file`
(src/main.py:89-108), carrying `has_youtube_cookies` and `valid_lines`. -/
def checkCookieLines : List String → Bool → Nat → Bool × String
  | [], has_youtube_cookies, valid_lines =>
    if !has_youtube_cookies then (false, "No YouTube/Google cookies found")
    else if valid_lines < 3 then (false, "Too few valid cookies")
    else (true, "Valid cookies file with " ++ toString valid_lines ++ " cookies")
  | line :: rest, has_youtube_cookies, valid_lines =>
    if pyStartsWith line "#" || (pyStrip line.data).isEmpty then
      checkCookieLines rest has_youtube_cookies valid_lines
    else
      let parts := pySplitChar (Char.ofNat 9) line.data
      if 7 ≤ parts.length then
        checkCookieLines rest
          (has_youtube_cookies ||
            (containsSub "youtube.com".data (parts.headD []) ||
             containsSub "google.com".data (parts.headD [])))
          (valid_lines + 1)
      else
        (false, "Invalid line format: " ++ (line.data.take 50).asString ++ "...")

/-- `validate_cookies_file` (src/main.py:77-108). -/
def validate_cookies_file (content : String) : Bool × String :=
  let lines := pyLines content
  if !pyStartsWith (lines.headD "") "# Netscape HTTP Cookie File" then
    (false, "Invalid format: Missing Netscape header")
  else
    checkCookieLines lines.tail false 0

/-- The validation conditions as stated by the claim: Netscape header on
the first line, every non-comment non-blank line has at least 7
tab-separated fields, some cookie's domain contains `youtube.com` or
`google.com`, and there are at least 3 valid cookie lines. -/
def cookiesSpecValid (content : String) : Bool :=
  let lines := pyLines content
  pyStartsWith (lines.headD "") "# Netscape HTTP Cookie File" &&
    lines.tail.all (fun line =>
      !(isCookieDataLine line) ||
        decide (7 ≤ (pySplitChar (Char.ofNat 9) line.data).length)) &&
    lines.tail.any (fun line => isValidCookieLine line && lineDomainIsYoutube line) &&
    decide (3 ≤ (lines.tail.filter isValidCookieLine).length)

lemma checkCookieLines_fst : ∀ (ls : List String) (hy : Bool) (v : Nat),
    (checkCookieLines ls hy v).1 =
      (ls.all (fun line =>
          !(isCookieDataLine line) ||
            decide (7 ≤ (pySplitChar (Char.ofNat 9) line.data).length)) &&
        (hy || ls.any (fun line => isValidCookieLine line && lineDomainIsYoutube line)) &&
        decide (3 ≤ v + (ls.filter isValidCookieLine).length)) := by
  intro ls
  induction ls with
  | nil =>
    intro hy v
    cases hy with
    | false => simp [checkCookieLines]
    | true =>
      by_cases h3 : 3 ≤ v
      · simp [checkCookieLines, Nat.not_lt.mpr h3, h3]
      · simp [checkCookieLines, Nat.not_le.mp h3, h3]
  | cons line rest ih =>
    intro hy v
    by_cases hskip : (pyStartsWith line "#" || (pyStrip line.data).isEmpty) = true
    · have hd : isCookieDataLine line = false := by
        simp [isCookieDataLine, hskip]
      have hval : isValidCookieLine line = false := by
        simp [isValidCookieLine, hd]
      simp only [checkCookieLines, hskip, if_true, ih, List.all_cons, List.any_cons,
        List.filter_cons, hd, hval, Bool.not_false, Bool.true_or, Bool.true_and,
        Bool.false_and, Bool.false_or, Bool.false_eq_true, if_false]
    · have hskip' : (pyStartsWith line "#" || (pyStrip line.data).isEmpty) = false := by
        revert hskip
        cases pyStartsWith line "#" || (pyStrip line.data).isEmpty <;> simp
      have hd : isCookieDataLine line = true := by
        simp [isCookieDataLine, hskip']
      by_cases h7 : 7 ≤ (pySplitChar (Char.ofNat 9) line.data).length
      · have hval : isValidCookieLine line = true := by
          simp [isValidCookieLine, hd, h7]
        simp only [checkCookieLines, hskip', Bool.false_eq_true, if_false, h7, if_true, ih,
          List.all_cons, List.any_cons, List.filter_cons, hd, hval, lineDomainIsYoutube,
          Bool.not_true, Bool.false_or, Bool.true_and, List.length_cons]
        have harith : v + 1 + (rest.filter isValidCookieLine).length =
            v + ((rest.filter isValidCookieLine).length + 1) := by omega
        rw [harith]
        cases hy <;> cases hyt : (containsSub "youtube.com".data
            ((pySplitChar (Char.ofNat 9) line.data).headD []) ||
          containsSub "google.com".data
            ((pySplitChar (Char.ofNat 9) line.data).headD [])) <;>
          simp [hyt]
      · have hval : isValidCookieLine line = false := by
          simp [isValidCookieLine, h7]
        simp only [checkCookieLines, hskip', Bool.false_eq_true, if_false, h7, if_true,
          List.all_cons, List.any_cons, hd, Bool.not_true, Bool.false_or]
        simp [h7]

/-- `(validate_cookies_file content).1` agrees with the claim's four
validation conditions. -/
lemma validate_cookies_file_fst (content : String) :
    (validate_cookies_file content).1 = cookiesSpecValid content := by
  unfold validate_cookies_file cookiesSpecValid
  cases hh : pyStartsWith ((pyLines content).headD "") "# Netscape HTTP Cookie File" with
  | false =>
    simp only [hh, Bool.not_false, if_true, Bool.false_and]
  | true =>
    simp only [hh, Bool.not_true, Bool.false_eq_true, if_false, Bool.true_and]
    rw [checkCookieLines_fst]
    simp

/-- A cookies-upload request: whether `'cookies_file' in request.files`,
the submitted filename, the result of `file.read().decode('utf-8')`
(decoding may raise), and the optional `uploader_name` form field. -/
structure CookieUpload where
  filePresent : Bool
  filename : String
  decoded : Except String String
  uploader_name : Option String

/-- `upload_cookies` (src/main.py:289-334).  `timestamp` is
`datetime.now().strftime('%Y%m%d_%H%M%S')` and `test_cookies_validity` the
network probe oracle (it never raises, src/main.py:110-137).  Returns the
flashed `(message, category)` list and the `(path, content)` list of files
written; the `setup_youtube_cookies()` refresh only mutates an environment
variable and is not modelled. -/
def upload_cookies (req : CookieUpload) (timestamp : String)
    (test_cookies_validity : String → Bool × String) :
    List (String × String) × List (String × String) :=
  if !req.filePresent then
    ([("No file selected", "danger")], [])
  else if req.filename = "" then
    ([("No file selected", "danger")], [])
  else
    match req.decoded with
    | .error e => ([("Upload failed: " ++ e, "danger")], [])
    | .ok content =>
      let vr := validate_cookies_file content
      if !vr.1 then
        ([("Invalid cookies file: " ++ vr.2, "danger")], [])
      else
        let user_name := sanitize_name (some (req.uploader_name.getD "anonymous"))
        let filename := user_name ++ "_" ++ timestamp ++ "_cookies.txt"
        let file_path := COOKIES_FOLDER ++ "/" ++ filename
        let tr := test_cookies_validity file_path
        ([("Cookies uploaded successfully! Status: " ++
            (if tr.1 then "✅ Working" else "⚠️ " ++ tr.2),
          if tr.1 then "success" else "warning")],
         [(file_path, content)])

/-- **C10.** An uploaded cookies file is written into the cookies folder
iff a file was submitted with a non-empty name, its bytes decode, and the
decoded content passes validation — Netscape header on the first line,
every non-comment non-blank line with at least 7 tab-separated fields, some
cookie domain containing `youtube.com`/`google.com`, and at least 3 valid
cookie lines (`cookiesSpecValid`, which coincides with
`validate_cookies_file`); anything written carries the validated content
under the cookies folder, and every rejection flashes a message and writes
nothing. -/
theorem upload_cookies_validation_gate (req : CookieUpload) (timestamp : String)
    (test_cookies_validity : String → Bool × String) :
    ((upload_cookies req timestamp test_cookies_validity).2 ≠ [] ↔
      (req.filePresent = true ∧ req.filename ≠ "" ∧
        ∃ content, req.decoded = .ok content ∧ cookiesSpecValid content = true)) ∧
    (∀ content, (validate_cookies_file content).1 = cookiesSpecValid content) ∧
    (∀ p c, (p, c) ∈ (upload_cookies req timestamp test_cookies_validity).2 →
      pyStartsWith p (COOKIES_FOLDER ++ "/") = true ∧
      req.decoded = .ok c ∧ cookiesSpecValid c = true) ∧
    ((upload_cookies req timestamp test_cookies_validity).2 = [] →
      ∃ m, (upload_cookies req timestamp test_cookies_validity).1 = [(m, "danger")]) := by
  have hsplit : ∀ p c, (p, c) ∈ (upload_cookies req timestamp test_cookies_validity).2 →
      pyStartsWith p (COOKIES_FOLDER ++ "/") = true ∧
      req.decoded = .ok c ∧ cookiesSpecValid c = true := by
    intro p c hm
    cases hp : req.filePresent with
    | false => simp [upload_cookies, hp] at hm
    | true =>
      by_cases hf : req.filename = ""
      · simp [upload_cookies, hp, hf] at hm
      · cases hd : req.decoded with
        | error e => simp [upload_cookies, hp, hf, hd] at hm
        | ok content =>
          cases hv : (validate_cookies_file content).1 with
          | false => simp [upload_cookies, hp, hf, hd, hv] at hm
          | true =>
            have hm' : p = COOKIES_FOLDER ++ "/" ++
                (sanitize_name (some (req.uploader_name.getD "anonymous")) ++ "_" ++
                  timestamp ++ "_cookies.txt") ∧ c = content := by
              simpa [upload_cookies, hp, hf, hd, hv] using hm
            refine ⟨?_, ?_, ?_⟩
            · rw [hm'.1]
              have : (COOKIES_FOLDER ++ "/" ++
                  (sanitize_name (some (req.uploader_name.getD "anonymous")) ++ "_" ++
                    timestamp ++ "_cookies.txt")).data =
                  (COOKIES_FOLDER ++ "/").data ++
                  (sanitize_name (some (req.uploader_name.getD "anonymous")) ++ "_" ++
                    timestamp ++ "_cookies.txt").data := by
                simp [String.data_append]
              rw [pyStartsWith, this]
              exact List.isPrefixOf_iff_prefix.mpr (List.prefix_append _ _)
            · simp [hm'.2, hd]
            · rw [hm'.2, ← validate_cookies_file_fst]
              exact hv
  refine ⟨?_, validate_cookies_file_fst, hsplit, ?_⟩
  · constructor
    · intro hne
      rcases hw : (upload_cookies req timestamp test_cookies_validity).2 with _ | ⟨⟨p, c⟩, rest⟩
      · exact absurd hw hne
      · have hm : (p, c) ∈ (upload_cookies req timestamp test_cookies_validity).2 := by
          rw [hw]
          exact List.mem_cons_self _ _
        obtain ⟨_, hdec, hval⟩ := hsplit p c hm
        refine ⟨?_, ?_, c, hdec, hval⟩
        · cases hp : req.filePresent with
          | true => rfl
          | false =>
            rw [show (upload_cookies req timestamp test_cookies_validity).2 = [] by
              simp [upload_cookies, hp]] at hw
            exact absurd hw.symm (List.cons_ne_nil _ _)
        · intro hf
          have : (upload_cookies req timestamp test_cookies_validity).2 = [] := by
            cases hp : req.filePresent with
            | false => simp [upload_cookies, hp]
            | true => simp [upload_cookies, hp, hf]
          rw [this] at hw
          exact absurd hw.symm (List.cons_ne_nil _ _)
    · rintro ⟨hp, hf, content, hd, hval⟩
      have hv : (validate_cookies_file content).1 = true := by
        rw [validate_cookies_file_fst]
        exact hval
      simp [upload_cookies, hp, hf, hd, hv]
  · intro hw
    cases hp : req.filePresent with
    | false => exact ⟨"No file selected", by simp [upload_cookies, hp]⟩
    | true =>
      by_cases hf : req.filename = ""
      · exact ⟨"No file selected", by simp [upload_cookies, hp, hf]⟩
      · cases hd : req.decoded with
        | error e => exact ⟨"Upload failed: " ++ e, by simp [upload_cookies, hp, hf, hd]⟩
        | ok content =>
          cases hv : (validate_cookies_file content).1 with
          | false =>
            exact ⟨"Invalid cookies file: " ++ (validate_cookies_file content).2,
              by simp [upload_cookies, hp, hf, hd, hv]⟩
          | true =>
            rw [show (upload_cookies req timestamp test_cookies_validity).2 =
                [(COOKIES_FOLDER ++ "/" ++
                  (sanitize_name (some (req.uploader_name.getD "anonymous")) ++ "_" ++
                    timestamp ++ "_cookies.txt"), content)] by
              simp [upload_cookies, hp, hf, hd, hv]] at hw
            exact absurd hw (List.cons_ne_nil _ _)

/-- Witness for C6: one stale and one fresh download entry, one stale and
one fresh cookie file. -/
theorem cleanup_old_files_retention_witness :
    cleanup_old_files (fun _ => true) 1000000
        { downloadEntries :=
            [{ name := "/tmp/downloads/old", ctime := 1000000 - 7201, isDir := true },
             { name := "/tmp/downloads/new", ctime := 1000000 - 3600, isDir := true }],
          converterUploadEntries := [],
          converterOutputEntries := [],
          cookieFiles :=
            [{ name := "/tmp/cookies/old.txt", ctime := 1000000 - 604801, isDir := false },
             { name := "/tmp/cookies/new.txt", ctime := 1000000 - 86400, isDir := false }] } =
      [{ path := "/tmp/downloads/old", recursive := true, ok := true },
       { path := "/tmp/cookies/old.txt", recursive := false, ok := true }] := by
  rw [(cleanup_old_files_retention 1000000
    { downloadEntries :=
        [{ name := "/tmp/downloads/old", ctime := 1000000 - 7201, isDir := true },
         { name := "/tmp/downloads/new", ctime := 1000000 - 3600, isDir := true }],
      converterUploadEntries := [],
      converterOutputEntries := [],
      cookieFiles :=
        [{ name := "/tmp/cookies/old.txt", ctime := 1000000 - 604801, isDir := false },
         { name := "/tmp/cookies/new.txt", ctime := 1000000 - 86400, isDir := false }] }).1]
  rfl

/-- A concrete well-formed Netscape cookies file with three YouTube/Google
cookie lines. -/
def sampleCookiesContent : String :=
  "# Netscape HTTP Cookie File\n.youtube.com\tTRUE\t/\tTRUE\t0\tSID\tabc\n.youtube.com\tTRUE\t/\tTRUE\t0\tHSID\tdef\n.google.com\tTRUE\t/\tTRUE\t0\tSSID\tghi"

/-- Witness for C10: a present file with non-empty name and valid decoded
content is written. -/
theorem upload_cookies_validation_gate_witness :
    (upload_cookies
      { filePresent := true, filename := "cookies.txt",
        decoded := .ok sampleCookiesContent, uploader_name := some "alice" }
      "20260101_000000" (fun _ => (true, "ok"))).2 ≠ [] :=
  (upload_cookies_validation_gate
    { filePresent := true, filename := "cookies.txt",
      decoded := .ok sampleCookiesContent, uploader_name := some "alice" }
    "20260101_000000" (fun _ => (true, "ok"))).1.mpr
    ⟨rfl, by decide, sampleCookiesContent, rfl, by decide⟩

end Nexufy
